import Mathlib

/-!
Verification development for the study-buddy backend (`back/server.py`).

The server accepts an uploaded PDF, extracts its text, builds a prompt for
the Gemini generation API and validates the JSON the model returns.  The
definitions below are a shallow embedding of the Python source: Python dicts
parsed from JSON become association lists, the `(result, error_response,
status_code)` triples become an explicit product, the filesystem becomes a
list of existing paths threaded through `process_pdf`, and the outcomes of
the fallible library calls (`file.save`, `extract_text`, `os.remove`,
`requests.post`, `json.loads`) are supplied as explicit parameters so that
every execution path of the handlers is a value of a total function.
-/

namespace StudyBuddy

/-- Values produced by the Python `json.loads` (numbers are modelled as
integers, which covers every payload the handlers inspect). -/
inductive Json where
  | null
  | bool (b : Bool)
  | num (n : Int)
  | str (s : String)
  | arr (elems : List Json)
  | obj (fields : List (String × Json))

/-- Python truthiness (`bool(x)`) for JSON-shaped values: `None`, `False`,
`0`, `""`, `[]` and `{}` are falsy, everything else truthy. -/
def Json.isTruthy : Json → Bool
  | .null => false
  | .bool b => b
  | .num n => n != 0
  | .str s => !s.isEmpty
  | .arr elems => !elems.isEmpty
  | .obj fields => !fields.isEmpty

/-- Python `isinstance(x, dict)` on a JSON value. -/
def Json.isDict : Json → Bool
  | .obj _ => true
  | _ => false

/-- The Python type name of a JSON value, used in error messages. -/
def Json.typeName : Json → String
  | .null => "NoneType"
  | .bool _ => "bool"
  | .num _ => "int"
  | .str _ => "str"
  | .arr _ => "list"
  | .obj _ => "dict"

/-- Exceptions the handler code can raise that the source does not catch. -/
inductive PyErr where
  | attributeError (msg : String)
  | typeError (msg : String)
deriving Repr, DecidableEq

/-- Membership test `k in d` for a Python dict modelled as an association
list. -/
def hasKey (fields : List (String × Json)) (k : String) : Bool :=
  fields.any (fun kv => kv.1 == k)

/-- First value bound to `k`, as Python dict lookup (JSON parsing keeps one
binding per key, so the first binding is the binding). -/
def lookupKey (fields : List (String × Json)) (k : String) : Option Json :=
  (fields.find? (fun kv => kv.1 == k)).map (fun kv => kv.2)

/-- Python `x.get(k, default)`: defined on dicts, raises `AttributeError`
on every other value. -/
def pyGet (j : Json) (k : String) (default : Json) : Except PyErr Json :=
  match j with
  | .obj fields => .ok ((lookupKey fields k).getD default)
  | _ => .error (.attributeError (j.typeName ++ " object has no attribute get"))

/-- Python `x[0]`: first element of a list, first character of a string
(as a one-character string); raises `TypeError` otherwise.  (`IndexError`
on an empty sequence cannot occur in the handler: it indexes only values
it has just checked to be truthy, and the dict-subscript case is folded
into `TypeError` since a JSON object never has the integer key `0`.) -/
def pyFirst (j : Json) : Except PyErr Json :=
  match j with
  | .arr (x :: _) => .ok x
  | .arr [] => .error (.typeError "index 0 out of range")
  | .str s =>
      match s.data with
      | c :: _ => .ok (.str (String.mk [c]))
      | [] => .error (.typeError "index 0 out of range")
  | _ => .error (.typeError (j.typeName ++ " object is not subscriptable"))

/-- The body the source builds as `jsonify` of a dict with one key,
`error`, for every error response. -/
structure ErrResponse where
  error : Json

/-- Characters the Python `str.strip` method removes. -/
def isPySpace (c : Char) : Bool :=
  c == ' ' || c == '\t' || c == '\n' || c == '\r' || c == '\x0b' || c == '\x0c'

/-- Python `s.strip()`. -/
def pyStrip (s : String) : String :=
  String.mk (((s.data.dropWhile isPySpace).reverse.dropWhile isPySpace).reverse)

/-- Python `s.endswith(suffix)` (exact, case-sensitive). -/
def endswith (s suffix : String) : Bool :=
  suffix.data.isSuffixOf s.data

/-- Python `s[:n]` on a string: its first `n` characters. -/
def takeChars (s : String) (n : Nat) : String :=
  String.mk (s.data.take n)

/-! ## Uploaded files, the temporary path, and the filesystem -/

/-- The uploaded file: declared filename and byte content. -/
structure UploadedFile where
  filename : String
  bytes : List Nat
deriving Repr, DecidableEq

/-- An incoming request, distinguished from every other request by `id`
(the stand-in of the embedding for request identity in the concurrency
claim). -/
structure Request where
  id : Nat
  file : UploadedFile
deriving Repr, DecidableEq

/-- The value of `UPLOAD_FOLDER` in `app.config`. -/
def uploadFolder : String := "./uploads"

/-- Model of `werkzeug.utils.secure_filename` for ASCII filenames: path
separators become spaces, whitespace-separated words are joined with `_`,
characters outside `A-Za-z0-9_.-` are dropped, and leading/trailing `.`
and `_` are stripped.  (The Unicode NFKD step and the Windows device-name
special case do not matter on the ASCII inputs considered here.) -/
def secureKeep (c : Char) : Bool :=
  c.isAlphanum || c == '_' || c == '.' || c == '-'

def secureStripEnds (l : List Char) : List Char :=
  ((l.dropWhile (fun c => c == '.' || c == '_')).reverse.dropWhile
    (fun c => c == '.' || c == '_')).reverse

def secureWords (s : String) : List (List Char) :=
  ((s.data.map (fun c => if c == '/' then ' ' else c)).splitOnP isPySpace).filter
    (fun w => !w.isEmpty)

def secure_filename (s : String) : String :=
  String.mk (secureStripEnds
    ((List.intercalate ['_'] (secureWords s)).filter secureKeep))

/-- Model of `os.path.join` of the upload folder and `filename`, for the sanitized
(relative) filenames `secure_filename` produces. -/
def file_path (folder : String) (file : UploadedFile) : String :=
  folder ++ "/" ++ secure_filename file.filename

/-- The on-disk path `process_pdf` uses for a request: the source derives it
from the uploaded filename alone (`server.py` lines 98-99); nothing about
the request besides the name of its file enters the computation. -/
def request_file_path (r : Request) : String :=
  file_path uploadFolder r.file

/-- The filesystem, as the list of paths that currently exist. -/
abbrev FS := List String

def fsAdd (fs : FS) (p : String) : FS :=
  if p ∈ fs then fs else p :: fs

def fsRemove (fs : FS) (p : String) : FS :=
  (fs : List String).filter (fun q => q ≠ p)

/-! ## `process_pdf` -/

/-- Outcome of `file.save(file_path)`: success creates the file; a failure
may or may not have created it before raising. -/
inductive SaveOutcome where
  | ok
  | failed (created : Bool) (msg : String)
deriving Repr, DecidableEq

/-- The fallible library calls one `process_pdf` run performs, supplied as
parameters: the declared `Content-Length` of the request, the outcome of
`file.save`, the outcome of the `pdfminer` `extract_text` call (extracted
text or the message of the exception), and whether `os.remove` succeeds. -/
structure PdfEnv where
  contentLength : Option Nat
  save : SaveOutcome
  extractText : Except String String
  removeOk : Bool

/-- The `(text, error_response, status_code)` triple `process_pdf` returns,
together with the filesystem as the call leaves it. -/
structure PdfOutcome where
  text : Option String
  err : Option ErrResponse
  status : Option Nat
  fs : FS

/-- The source check `request.content_length and request.content_length
> 5 * 1024 * 1024`:
a missing (`None`) or zero declared length is falsy, so only a present
positive length is compared against the limit. -/
def oversize (contentLength : Option Nat) : Bool :=
  match contentLength with
  | none => false
  | some cl => cl != 0 && decide (5 * 1024 * 1024 < cl)

/-- The `finally` block of `process_pdf`: remove the temporary file if it
exists; a failing `os.remove` is logged and swallowed, leaving the file. -/
def runFinally (removeOk : Bool) (path : String) (fs : FS) : FS :=
  if path ∈ fs then (if removeOk then fsRemove fs path else fs) else fs

/-- Model of `process_pdf(file)` (`server.py` lines 87-116): validate the upload,
save it to `file_path`, extract its text, and delete the temporary file on
every exit path via `try/finally`. -/
def process_pdf (env : PdfEnv) (fs : FS) (file : UploadedFile) : PdfOutcome :=
  if file.filename == "" then
    ⟨none, some ⟨.str "No file selected"⟩, some 400, fs⟩
  else if !(endswith file.filename ".pdf") then
    ⟨none, some ⟨.str "Invalid file format, only PDFs allowed"⟩, some 400, fs⟩
  else if oversize env.contentLength then
    ⟨none, some ⟨.str "File too large, max 5MB"⟩, some 400, fs⟩
  else
    let path := file_path uploadFolder file
    match env.save with
    | .failed created msg =>
        let fs1 := if created then fsAdd fs path else fs
        ⟨none, some ⟨.str ("PDF processing failed: " ++ msg)⟩, some 500,
          runFinally env.removeOk path fs1⟩
    | .ok =>
        let fs1 := fsAdd fs path
        match env.extractText with
        | .error msg =>
            ⟨none, some ⟨.str ("PDF processing failed: " ++ msg)⟩, some 500,
              runFinally env.removeOk path fs1⟩
        | .ok text =>
            if pyStrip text == "" then
              ⟨none, some ⟨.str "No text could be extracted from the PDF"⟩, some 400,
                runFinally env.removeOk path fs1⟩
            else
              ⟨some text, none, none, runFinally env.removeOk path fs1⟩

/-! ## Prompt construction -/

def uploadPromptPre : String :=
  "\n        You are an expert tutor with a strong background in mathematics and problem-solving. The following text contains questions from a test or questionnaire (TQ). Analyze the text, identify the questions, and provide clear, concise, and accurate solutions for each question. Pay special attention to mathematical problems, ensuring that all calculations are correct and explanations are thorough.\n\n        Format the response as a JSON object where each key is a question number or identifier (e.g., \"Q1\", \"Q2\") and the value is an object with \"question\" (the question text) and \"solution\" (the answer or explanation). Do not wrap the JSON in any additional structures, arrays, or text. If the questions are not clearly numbered, infer the structure and assign identifiers like \"Q1\", \"Q2\", etc. If the text is unclear, provide your best interpretation.\n\n        For mathematical problems, include step-by-step solutions where applicable, and ensure the final answer is clearly stated.\n\n        Example input:\n        Q1: What is 2 + 2?\n        Q2: Solve for x: 2x + 3 = 7.\n\n        Expected output:\n        \x7b\n          \"Q1\": \x7b \"question\": \"What is 2 + 2?\", \"solution\": \"2 + 2 = 4\" \x7d,\n          \"Q2\": \x7b \"question\": \"Solve for x: 2x + 3 = 7\", \"solution\": \"2x + 3 = 7\\n2x = 4\\nx = 2\" \x7d\n        \x7d\n\n        Text from file:\n        "

def uploadPromptPost : String :=
  "\n\n        Return only the JSON object, without any additional text, markdown, or wrapping.\n    "

def notesPromptPre : String :=
  "\n        You are an expert educator skilled in creating comprehensive study materials. The following text is extracted from a PDF document. Analyze the text and generate extensive, well-structured notes that summarize and explain the key concepts, ideas, and details in the document. If the text includes questions, pick the topics from the questions and generate a note with it instead of answering the question. The notes should be clear, concise, and suitable for university-level study, organized with headings, bullet points, or numbered lists as appropriate. Focus on clarity, educational value, and retaining all critical information. If the text is unclear or ambiguous, make reasonable interpretations and note any assumptions made.\n\n        Text from file:\n        "

def notesPromptPost : String :=
  "\n\n        Return the response as a JSON object with a single field \"notes\" containing the generated notes as a string.\n        Example format:\n        \x7b\n          \"notes\": \"Generated notes text with headings, bullet points, etc.\"\n        \x7d\n    "

/-- The marker `upload_pdf` appends when it truncates large text. -/
def truncMarker : String := "... (text truncated for API consumption)"

/-- Source `server.py` lines 199-201: the solve-questions endpoint keeps the first
8000 characters of large text and appends the truncation marker. -/
def truncate_text (text : String) : String :=
  if 8000 < text.length then takeChars text 8000 ++ truncMarker else text

/-- The solve-questions prompt (`server.py` lines 203-224) with `text`
embedded at its `\x7btext\x7d` placeholder. -/
def upload_prompt (text : String) : String :=
  uploadPromptPre ++ text ++ uploadPromptPost

/-- The notes prompt (`server.py` lines 243-254) with `text` embedded at its
`\x7btext\x7d` placeholder. -/
def notes_prompt (text : String) : String :=
  notesPromptPre ++ text ++ notesPromptPost

/-! ## `call_gemini_api` -/

/-- Outcome of `requests.post` to the generation endpoint: either an
exception caught by `except requests.RequestException` (timeouts,
connection errors, and — since `requests` 2.27 — a response body that is
not valid JSON, whose `response.json()` error subclasses
`RequestException`), or a response with its status code and parsed JSON
body. -/
inductive HttpOutcome where
  | exc (msg : String)
  | resp (status : Nat) (body : Json)

/-- The source check `not GEMINI_API_KEY`: the credential is `None` when the environment
variable is unset, and falsy also when set to the empty string. -/
def keyMissing : Option String → Bool
  | none => true
  | some k => k.isEmpty

/-- What one `call_gemini_api` call produces: the
`(result, error_response, status_code)` triple of the source (or an uncaught Python
exception), plus the prompt that was posted to the API — `none` when no
outbound request was attempted. -/
structure CallOutcome where
  res : Except PyErr (Option Json × Option ErrResponse × Option Nat)
  sent : Option String

/-- One entry of the solutions object passes
`isinstance(value, dict) and "question" in value and "solution" in value`. -/
def solutionEntryOk : Json → Bool
  | .obj fields => hasKey fields "question" && hasKey fields "solution"
  | _ => false

/-- Source `server.py` lines 163-179: reject a falsy or non-dict parse; accept any
dict containing a `notes` key as-is; otherwise require every value to be a
dict with `question` and `solution` keys.  (The final arm repeats the
non-dict rejection only to make the match total; the guard has already
taken it.) -/
def validate_shape (result : Json) : Except ErrResponse Json :=
  if !result.isTruthy || !result.isDict then
    .error ⟨.str "Invalid response format from Gemini API"⟩
  else
    match result with
    | .obj fields =>
        if hasKey fields "notes" then .ok result
        else if (fields.map Prod.snd).all solutionEntryOk then .ok result
        else .error ⟨.str "Gemini API returned invalid solution format"⟩
    | _ => .error ⟨.str "Invalid response format from Gemini API"⟩

/-- Model of `server.py` lines 138-141 (the non-200 branch): the chain
`response.json().get(...).get(...)` reading the `error` field and then its
`message` field, with the generic fallback `Gemini API request failed` —
note both `get` calls raise `AttributeError` when their receiver is not a
dict. -/
def gemini_error_response (body : Json) :
    Except PyErr (Option Json × Option ErrResponse × Option Nat) :=
  match pyGet body "error" (Json.obj []) with
  | .error e => .error e
  | .ok errData =>
      match pyGet errData "message" (Json.str "Gemini API request failed") with
      | .error e => .error e
      | .ok msg => .ok (none, some ⟨msg⟩, some 500)

/-- Source `server.py` lines 143-182 (the 200 branch): drill into
`candidates[0].content.parts[0].text`, parse it as JSON and shape-check the
parse.  `jsonLoads` supplies the outcome of `json.loads` on the text;
calling `json.loads` on a non-string raises `TypeError`, which no `except`
clause of the source catches. -/
def gemini_success_response (jsonLoads : String → Except String Json) (body : Json) :
    Except PyErr (Option Json × Option ErrResponse × Option Nat) :=
  match pyGet body "candidates" (Json.arr []) with
  | .error e => .error e
  | .ok candidates =>
      if !candidates.isTruthy then
        .ok (none, some ⟨.str "No content returned from Gemini API"⟩, some 500)
      else
        match pyFirst candidates with
        | .error e => .error e
        | .ok cand0 =>
            match pyGet cand0 "content" (Json.obj []) with
            | .error e => .error e
            | .ok contentObj =>
                match pyGet contentObj "parts" (Json.arr []) with
                | .error e => .error e
                | .ok parts =>
                    if !parts.isTruthy then
                      .ok (none, some ⟨.str "No content returned from Gemini API"⟩, some 500)
                    else
                      match pyFirst parts with
                      | .error e => .error e
                      | .ok part0 =>
                          match pyGet part0 "text" Json.null with
                          | .error e => .error e
                          | .ok textValue =>
                              if !textValue.isTruthy then
                                .ok (none, some ⟨.str "No content returned from Gemini API"⟩,
                                  some 500)
                              else
                                match textValue with
                                | .str s =>
                                    match jsonLoads s with
                                    | .error emsg =>
                                        .ok (none,
                                          some ⟨.str ("Invalid JSON format from Gemini API: "
                                            ++ emsg)⟩, some 500)
                                    | .ok result =>
                                        match validate_shape result with
                                        | .ok r => .ok (some r, none, none)
                                        | .error e => .ok (none, some e, some 500)
                                | other =>
                                    .error (.typeError
                                      ("the JSON object must be str, not " ++ other.typeName))

/-- Model of `call_gemini_api(prompt)` (`server.py` lines 118-185): fail fast when
the credential is missing — before any outbound request — then post the
prompt and handle the response. -/
def call_gemini_api (apiKey : Option String) (http : HttpOutcome)
    (jsonLoads : String → Except String Json) (prompt : String) : CallOutcome :=
  if keyMissing apiKey then
    ⟨.ok (none, some ⟨.str "Server configuration error: API key missing"⟩, some 500), none⟩
  else
    match http with
    | .exc msg =>
        ⟨.ok (none, some ⟨.str ("Gemini API request failed: " ++ msg)⟩, some 500), some prompt⟩
    | .resp status body =>
        if status != 200 then ⟨gemini_error_response body, some prompt⟩
        else ⟨gemini_success_response jsonLoads body, some prompt⟩

/-! ## The two endpoints -/

/-- A response body the endpoints return: an error envelope, the
solve-questions envelope wrapping the result under `solutions`, or the plain
`jsonify(result)` of the notes endpoint. -/
inductive RespBody where
  | errBody (e : ErrResponse)
  | solutions (result : Json)
  | plain (result : Json)

/-- The source expression `status_code if status_code else 500`: `None`
and `0` are falsy. -/
def statusOr500 : Option Nat → Nat
  | some s => if s == 0 then 500 else s
  | none => 500

/-- An endpoint run: the HTTP response (or an uncaught Python exception),
the filesystem afterwards, the prompt the endpoint built (`none` when the
run failed before prompt construction), and the prompt of the outbound
Gemini request — `none` when no outbound request was attempted. -/
structure EndpointResult where
  resp : Except PyErr (RespBody × Nat)
  fs : FS
  built : Option String
  sent : Option String

/-- Model of `upload_pdf()` (`server.py` lines 187-230): process the upload, truncate
large text, build the solve-questions prompt, call Gemini and wrap the
result under `solutions`.  (`fileField` is the `file` entry of
`request.files` when present; were `process_pdf` ever to return the
triple `(None, None, None)`, the
subsequent `len(text)` would raise `TypeError` — that arm exists only to
make the match total.) -/
def upload_pdf (apiKey : Option String) (http : HttpOutcome)
    (jsonLoads : String → Except String Json) (penv : PdfEnv) (fs : FS)
    (fileField : Option UploadedFile) : EndpointResult :=
  match fileField with
  | none => ⟨.ok (.errBody ⟨.str "No file uploaded"⟩, 400), fs, none, none⟩
  | some file =>
      let p := process_pdf penv fs file
      match p.err with
      | some e => ⟨.ok (.errBody e, statusOr500 p.status), p.fs, none, none⟩
      | none =>
          match p.text with
          | none => ⟨.error (.typeError "object of type NoneType has no len"), p.fs, none, none⟩
          | some t =>
              let prompt := upload_prompt (truncate_text t)
              let c := call_gemini_api apiKey http jsonLoads prompt
              match c.res with
              | .error e => ⟨.error e, p.fs, some prompt, c.sent⟩
              | .ok (result, errR, status) =>
                  match errR with
                  | some e => ⟨.ok (.errBody e, statusOr500 status), p.fs, some prompt, c.sent⟩
                  | none => ⟨.ok (.solutions (result.getD Json.null), 200), p.fs, some prompt, c.sent⟩

/-- Model of `generate_notes()` (`server.py` lines 232-260): identical skeleton, but
the extracted text is embedded into the notes prompt unchanged — there is
no truncation step in this endpoint — and the result is returned as the
body itself. -/
def generate_notes (apiKey : Option String) (http : HttpOutcome)
    (jsonLoads : String → Except String Json) (penv : PdfEnv) (fs : FS)
    (fileField : Option UploadedFile) : EndpointResult :=
  match fileField with
  | none => ⟨.ok (.errBody ⟨.str "No file uploaded"⟩, 400), fs, none, none⟩
  | some file =>
      let p := process_pdf penv fs file
      match p.err with
      | some e => ⟨.ok (.errBody e, statusOr500 p.status), p.fs, none, none⟩
      | none =>
          match p.text with
          | none => ⟨.error (.typeError "object of type NoneType has no len"), p.fs, none, none⟩
          | some t =>
              let prompt := notes_prompt t
              let c := call_gemini_api apiKey http jsonLoads prompt
              match c.res with
              | .error e => ⟨.error e, p.fs, some prompt, c.sent⟩
              | .ok (result, errR, status) =>
                  match errR with
                  | some e => ⟨.ok (.errBody e, statusOr500 status), p.fs, some prompt, c.sent⟩
                  | none => ⟨.ok (.plain (result.getD Json.null), 200), p.fs, some prompt, c.sent⟩

/-! ## General lemmas about the embedding -/

/-- A successful `os.remove` in the `finally` block leaves no file at the
temporary path, whatever the filesystem held. -/
theorem not_mem_runFinally (p : String) (fs : FS) : p ∉ runFinally true p fs := by
  unfold runFinally
  by_cases h : p ∈ fs
  · simp [h, fsRemove]
  · simp [h]

/-- The size check fires exactly for a present, non-zero declared length
above `5 * 1024 * 1024`. -/
theorem oversize_iff (cl : Option Nat) :
    oversize cl = true ↔ ∃ n, cl = some n ∧ n ≠ 0 ∧ 5 * 1024 * 1024 < n := by
  cases cl with
  | none => simp [oversize]
  | some n => simp [oversize]

/-- No `PDF processing failed: ...` body coincides with the size-limit
body (their lengths force the suffix empty, and the prefixes differ). -/
theorem pdf_failed_msg_ne (m : String) :
    "PDF processing failed: " ++ m ≠ "File too large, max 5MB" := by
  intro h
  have hlen := congrArg String.length h
  rw [String.length_append] at hlen
  have hm : m.length = 0 := by
    have : ("PDF processing failed: " : String).length = 23 := by decide
    have : ("File too large, max 5MB" : String).length = 23 := by decide
    omega
  have hme : m = "" := by
    cases m with
    | mk data =>
        cases data with
        | nil => rfl
        | cons c cs => simp [String.length] at hm
  subst hme
  exact absurd h (by decide)

/-! ## The claims -/

/-- C5: while the API credential is absent, `call_gemini_api` returns the
500 response `Server configuration error: API key missing` and attempts no
outbound HTTP request (`sent = none`), whatever the network, the JSON
parser or the prompt would have been. -/
theorem C5_missing_key_no_request (http : HttpOutcome)
    (jsonLoads : String → Except String Json) (prompt : String) :
    call_gemini_api none http jsonLoads prompt =
      ⟨.ok (none, some ⟨.str "Server configuration error: API key missing"⟩, some 500),
        none⟩ := rfl

/-- C7 counterexample: a file whose filename is the empty string — which
does not end in `.pdf` — is answered with the body
`\x7b"error": "No file selected"\x7d`, not the claimed
`\x7b"error": "Invalid file format, only PDFs allowed"\x7d`. -/
theorem C7_empty_filename_other_body :
    endswith "" ".pdf" = false ∧
    (process_pdf ⟨none, .ok, .ok "text", true⟩ [] ⟨"", []⟩).err =
      some ⟨.str "No file selected"⟩ ∧
    "No file selected" ≠ "Invalid file format, only PDFs allowed" := by
  refine ⟨by decide, rfl, by decide⟩

/-- C7 amended: for every uploaded file with a NON-EMPTY filename that does
not end with the exact lowercase suffix `.pdf`, `process_pdf` returns 400
with body `\x7b"error": "Invalid file format, only PDFs allowed"\x7d` and
leaves the filesystem untouched — the rejection happens before any file is
written.  The suffix check is case-sensitive, so `FILE.PDF` is rejected
(see the witness). -/
theorem C7_invalid_format_rejected (env : PdfEnv) (fs : FS) (file : UploadedFile)
    (hne : file.filename ≠ "") (hpdf : endswith file.filename ".pdf" = false) :
    process_pdf env fs file =
      ⟨none, some ⟨.str "Invalid file format, only PDFs allowed"⟩, some 400, fs⟩ := by
  have h1 : (file.filename == "") = false := by simp [hne]
  simp [process_pdf, h1, hpdf]

theorem C7_invalid_format_rejected_witness :
    process_pdf ⟨none, .ok, .ok "text", true⟩ [] ⟨"FILE.PDF", []⟩ =
      ⟨none, some ⟨.str "Invalid file format, only PDFs allowed"⟩, some 400, []⟩ :=
  C7_invalid_format_rejected _ _ _ (by decide) (by decide)

/-- C4 counterexample: two distinct requests whose uploads carry the same
filename are mapped to the same on-disk path `./uploads/a.pdf` — the
temporary path is not request-scoped. -/
theorem C4_same_name_same_path :
    (⟨1, ⟨"a.pdf", [0]⟩⟩ : Request) ≠ ⟨2, ⟨"a.pdf", [1]⟩⟩ ∧
    request_file_path ⟨1, ⟨"a.pdf", [0]⟩⟩ = request_file_path ⟨2, ⟨"a.pdf", [1]⟩⟩ := by
  refine ⟨by decide, rfl⟩

/-- C4 amended: the on-disk path is the deterministic function
`os.path.join(UPLOAD_FOLDER, secure_filename(filename))` of the uploaded
filename alone — nothing request-scoped enters it — so any two requests
with equal uploaded filenames use the SAME temporary path and can collide
on writing and deleting it. -/
theorem C4_path_depends_only_on_filename (r1 r2 : Request)
    (h : r1.file.filename = r2.file.filename) :
    request_file_path r1 = request_file_path r2 := by
  unfold request_file_path file_path
  rw [h]

theorem C4_path_depends_only_on_filename_witness :
    request_file_path ⟨3, ⟨"b.pdf", []⟩⟩ = request_file_path ⟨4, ⟨"b.pdf", [7]⟩⟩ :=
  C4_path_depends_only_on_filename _ _ rfl

/-- Two error bodies built from string literals are equal only when the
literals are. -/
theorem some_err_str_inj {a b : String}
    (h : (some ⟨Json.str a⟩ : Option ErrResponse) = some ⟨Json.str b⟩) : a = b := by
  injection h with h1
  injection h1 with h2
  injection h2

/-- While the size check is falsy, no exit of `process_pdf` carries the
size-limit body. -/
theorem process_pdf_err_oversize_false (env : PdfEnv) (fs : FS) (file : UploadedFile)
    (hov : oversize env.contentLength = false) :
    (process_pdf env fs file).err ≠ some ⟨.str "File too large, max 5MB"⟩ := by
  by_cases h0 : (file.filename == "") = true
  · simp only [process_pdf, h0, if_true]
    intro h
    exact absurd (some_err_str_inj h) (by decide)
  · have h0' : (file.filename == "") = false := by simpa using h0
    by_cases h1 : endswith file.filename ".pdf" = true
    · cases hsave : env.save with
      | failed created msg =>
          simp only [process_pdf, h0', h1, hov, hsave, Bool.not_true, if_false,
            Bool.false_eq_true]
          intro h
          exact pdf_failed_msg_ne msg (some_err_str_inj h)
      | ok =>
          cases hex : env.extractText with
          | error msg =>
              simp only [process_pdf, h0', h1, hov, hsave, hex, Bool.not_true, if_false,
                Bool.false_eq_true]
              intro h
              exact pdf_failed_msg_ne msg (some_err_str_inj h)
          | ok text =>
              by_cases hts : (pyStrip text == "") = true
              · simp only [process_pdf, h0', h1, hov, hsave, hex, hts, Bool.not_true,
                  if_false, if_true, Bool.false_eq_true]
                intro h
                exact absurd (some_err_str_inj h) (by decide)
              · have hts' : (pyStrip text == "") = false := by simpa using hts
                simp only [process_pdf, h0', h1, hov, hsave, hex, hts', Bool.not_true,
                  if_false, Bool.false_eq_true]
                simp
    · have h1' : endswith file.filename ".pdf" = false := by simpa using h1
      simp only [process_pdf, h0', h1', Bool.not_false, if_true, Bool.false_eq_true,
        if_false]
      intro h
      exact absurd (some_err_str_inj h) (by decide)

/-- C9: among uploads that pass the filename checks, the 400 body
`File too large, max 5MB` is returned exactly when the request DECLARES a
content length (`request.content_length` non-`None` and non-zero) above
`5 * 1024 * 1024`; the byte content of the uploaded file (`file.bytes`,
universally quantified here) never enters the check, and a request that
declares no length is never rejected for size.  The forward direction
holds with no proviso; the backward direction needs the filename checks,
which run first, to have passed. -/
theorem C9_size_limit_iff (env : PdfEnv) (fs : FS) (file : UploadedFile) :
    ((process_pdf env fs file).err = some ⟨.str "File too large, max 5MB"⟩ →
      ∃ n, env.contentLength = some n ∧ n ≠ 0 ∧ 5 * 1024 * 1024 < n) ∧
    (file.filename ≠ "" → endswith file.filename ".pdf" = true →
      (∃ n, env.contentLength = some n ∧ n ≠ 0 ∧ 5 * 1024 * 1024 < n) →
      (process_pdf env fs file).err = some ⟨.str "File too large, max 5MB"⟩) := by
  constructor
  · intro h
    by_cases hov : oversize env.contentLength = true
    · exact (oversize_iff _).mp hov
    · exact absurd h (process_pdf_err_oversize_false _ _ _ (by simpa using hov))
  · intro hne hpdf hex
    have hov : oversize env.contentLength = true := (oversize_iff _).mpr hex
    have h0 : (file.filename == "") = false := by simp [hne]
    simp [process_pdf, h0, hpdf, hov]

/-- C3: once the pre-save validations have passed, the temporary path is
absent from the filesystem when `process_pdf` returns, on every exit path
— successful extraction, empty-text failure, or an exception raised by
`file.save` or `extract_text` — provided `os.remove` itself succeeds; and
a failing `os.remove` changes nothing in the returned
`(text, error_response, status_code)` triple: the failure is logged, never
escalated. -/
theorem C3_temp_file_deleted (env : PdfEnv) (fs : FS) (file : UploadedFile)
    (hne : file.filename ≠ "") (hpdf : endswith file.filename ".pdf" = true)
    (hov : oversize env.contentLength = false) (hrm : env.removeOk = true) :
    file_path uploadFolder file ∉ (process_pdf env fs file).fs ∧
    ∀ b : Bool,
      ((process_pdf ⟨env.contentLength, env.save, env.extractText, b⟩ fs file).text,
        (process_pdf ⟨env.contentLength, env.save, env.extractText, b⟩ fs file).err,
        (process_pdf ⟨env.contentLength, env.save, env.extractText, b⟩ fs file).status) =
      ((process_pdf env fs file).text, (process_pdf env fs file).err,
        (process_pdf env fs file).status) := by
  have h0 : (file.filename == "") = false := by simp [hne]
  constructor
  · cases hsave : env.save with
    | failed created msg =>
        simp [process_pdf, h0, hpdf, hov, hsave, hrm]
        exact not_mem_runFinally _ _
    | ok =>
        cases hex : env.extractText with
        | error msg =>
            simp [process_pdf, h0, hpdf, hov, hsave, hex, hrm]
            exact not_mem_runFinally _ _
        | ok text =>
            by_cases hts : (pyStrip text == "") = true
            · simp [process_pdf, h0, hpdf, hov, hsave, hex, hts, hrm]
              exact not_mem_runFinally _ _
            · have hts' : (pyStrip text == "") = false := by simpa using hts
              simp [process_pdf, h0, hpdf, hov, hsave, hex, hts', hrm]
              exact not_mem_runFinally _ _
  · intro b
    cases hsave : env.save with
    | failed created msg => simp [process_pdf, h0, hpdf, hov, hsave]
    | ok =>
        cases hex : env.extractText with
        | error msg => simp [process_pdf, h0, hpdf, hov, hsave, hex]
        | ok text =>
            by_cases hts : (pyStrip text == "") = true
            · simp [process_pdf, h0, hpdf, hov, hsave, hex, hts]
            · have hts' : (pyStrip text == "") = false := by simpa using hts
              simp [process_pdf, h0, hpdf, hov, hsave, hex, hts']

theorem C3_temp_file_deleted_witness :
    file_path uploadFolder ⟨"notes.pdf", [1, 2]⟩ ∉
      (process_pdf ⟨some 100, .ok, .ok "hello", true⟩ ["./uploads/other.pdf"]
        ⟨"notes.pdf", [1, 2]⟩).fs ∧
    ∀ b : Bool,
      ((process_pdf ⟨some 100, .ok, .ok "hello", b⟩ ["./uploads/other.pdf"]
          ⟨"notes.pdf", [1, 2]⟩).text,
        (process_pdf ⟨some 100, .ok, .ok "hello", b⟩ ["./uploads/other.pdf"]
          ⟨"notes.pdf", [1, 2]⟩).err,
        (process_pdf ⟨some 100, .ok, .ok "hello", b⟩ ["./uploads/other.pdf"]
          ⟨"notes.pdf", [1, 2]⟩).status) =
      ((process_pdf ⟨some 100, .ok, .ok "hello", true⟩ ["./uploads/other.pdf"]
          ⟨"notes.pdf", [1, 2]⟩).text,
        (process_pdf ⟨some 100, .ok, .ok "hello", true⟩ ["./uploads/other.pdf"]
          ⟨"notes.pdf", [1, 2]⟩).err,
        (process_pdf ⟨some 100, .ok, .ok "hello", true⟩ ["./uploads/other.pdf"]
          ⟨"notes.pdf", [1, 2]⟩).status) :=
  C3_temp_file_deleted ⟨some 100, .ok, .ok "hello", true⟩ _ _ (by decide) (by decide)
    (by decide) rfl

/-- A string of Python-whitespace characters strips to the empty string. -/
theorem pyStrip_empty_of_all_space (t : String) (h : t.data.all isPySpace = true) :
    pyStrip t = "" := by
  unfold pyStrip
  have h1 : t.data.dropWhile isPySpace = [] := by
    rw [List.dropWhile_eq_nil_iff]
    intro x hx
    exact List.all_eq_true.mp h x hx
  rw [h1]
  rfl

/-- C6: an upload whose extraction yields an empty or whitespace-only
string is answered 400 with the dedicated body
`No text could be extracted from the PDF`, by `process_pdf` and by both
endpoints, and `call_gemini_api` is never reached: no prompt is built and
no outbound request is attempted, whatever the credential and the network
would have been. -/
theorem C6_empty_text_never_calls_model (apiKey : Option String) (http : HttpOutcome)
    (jsonLoads : String → Except String Json) (env : PdfEnv) (fs : FS)
    (file : UploadedFile) (t : String)
    (hne : file.filename ≠ "") (hpdf : endswith file.filename ".pdf" = true)
    (hov : oversize env.contentLength = false) (hsave : env.save = .ok)
    (hex : env.extractText = .ok t) (hws : t.data.all isPySpace = true) :
    (process_pdf env fs file).err =
        some ⟨.str "No text could be extracted from the PDF"⟩ ∧
    (process_pdf env fs file).status = some 400 ∧
    (upload_pdf apiKey http jsonLoads env fs (some file)).resp =
      .ok (.errBody ⟨.str "No text could be extracted from the PDF"⟩, 400) ∧
    (upload_pdf apiKey http jsonLoads env fs (some file)).built = none ∧
    (upload_pdf apiKey http jsonLoads env fs (some file)).sent = none ∧
    (generate_notes apiKey http jsonLoads env fs (some file)).resp =
      .ok (.errBody ⟨.str "No text could be extracted from the PDF"⟩, 400) ∧
    (generate_notes apiKey http jsonLoads env fs (some file)).built = none ∧
    (generate_notes apiKey http jsonLoads env fs (some file)).sent = none := by
  have h0 : (file.filename == "") = false := by simp [hne]
  have hts : (pyStrip t == "") = true := by
    simp [pyStrip_empty_of_all_space t hws]
  have hp : process_pdf env fs file =
      ⟨none, some ⟨.str "No text could be extracted from the PDF"⟩, some 400,
        runFinally env.removeOk (file_path uploadFolder file)
          (fsAdd fs (file_path uploadFolder file))⟩ := by
    simp [process_pdf, h0, hpdf, hov, hsave, hex, hts]
  refine ⟨by rw [hp], by rw [hp], ?_, ?_, ?_, ?_, ?_, ?_⟩ <;>
    simp [upload_pdf, generate_notes, hp, statusOr500]

theorem C6_empty_text_never_calls_model_witness :
    (process_pdf ⟨none, .ok, .ok " \n\t ", true⟩ [] ⟨"a.pdf", []⟩).err =
        some ⟨.str "No text could be extracted from the PDF"⟩ ∧
    (process_pdf ⟨none, .ok, .ok " \n\t ", true⟩ [] ⟨"a.pdf", []⟩).status = some 400 ∧
    (upload_pdf (some "k") (.exc "down") (fun _ => .error "e")
        ⟨none, .ok, .ok " \n\t ", true⟩ [] (some ⟨"a.pdf", []⟩)).resp =
      .ok (.errBody ⟨.str "No text could be extracted from the PDF"⟩, 400) ∧
    (upload_pdf (some "k") (.exc "down") (fun _ => .error "e")
        ⟨none, .ok, .ok " \n\t ", true⟩ [] (some ⟨"a.pdf", []⟩)).built = none ∧
    (upload_pdf (some "k") (.exc "down") (fun _ => .error "e")
        ⟨none, .ok, .ok " \n\t ", true⟩ [] (some ⟨"a.pdf", []⟩)).sent = none ∧
    (generate_notes (some "k") (.exc "down") (fun _ => .error "e")
        ⟨none, .ok, .ok " \n\t ", true⟩ [] (some ⟨"a.pdf", []⟩)).resp =
      .ok (.errBody ⟨.str "No text could be extracted from the PDF"⟩, 400) ∧
    (generate_notes (some "k") (.exc "down") (fun _ => .error "e")
        ⟨none, .ok, .ok " \n\t ", true⟩ [] (some ⟨"a.pdf", []⟩)).built = none ∧
    (generate_notes (some "k") (.exc "down") (fun _ => .error "e")
        ⟨none, .ok, .ok " \n\t ", true⟩ [] (some ⟨"a.pdf", []⟩)).sent = none :=
  C6_empty_text_never_calls_model (some "k") (.exc "down") (fun _ => .error "e")
    ⟨none, .ok, .ok " \n\t ", true⟩ [] ⟨"a.pdf", []⟩ " \n\t "
    (by decide) (by decide) rfl rfl rfl (by decide)

/-- The canonical upstream success envelope: `candidates[0].content.parts[0].text`
holding the raw text of the model. -/
def geminiBody (s : String) : Json :=
  .obj [("candidates", .arr [.obj [("content",
    .obj [("parts", .arr [.obj [("text", .str s)]])])]])]

/-- A falsy (`\x7b\x7d`) or non-dict parse is rejected by the shape check
with the invalid-format body. -/
theorem validate_shape_invalid (result : Json)
    (h : result = Json.obj [] ∨ result.isDict = false) :
    validate_shape result = .error ⟨.str "Invalid response format from Gemini API"⟩ := by
  rcases h with h | h
  · subst h; rfl
  · cases result with
    | obj fields => simp [Json.isDict] at h
    | null => rfl
    | bool b => cases b <;> rfl
    | num n => unfold validate_shape; simp [Json.isDict, Json.isTruthy]
    | str s => unfold validate_shape; simp [Json.isDict, Json.isTruthy]
    | arr elems => unfold validate_shape; simp [Json.isDict, Json.isTruthy]

/-- Whatever the shape check accepts is a non-empty JSON object. -/
theorem validate_shape_ok_nonempty (result2 r : Json)
    (h : validate_shape result2 = .ok r) :
    ∃ fields, r = Json.obj fields ∧ fields ≠ [] := by
  cases result2 with
  | null => simp [validate_shape, Json.isTruthy, Json.isDict] at h
  | bool b => cases b <;> simp [validate_shape, Json.isTruthy, Json.isDict] at h
  | num n => simp [validate_shape, Json.isTruthy, Json.isDict] at h
  | str s => simp [validate_shape, Json.isTruthy, Json.isDict] at h
  | arr elems => simp [validate_shape, Json.isTruthy, Json.isDict] at h
  | obj fields =>
      unfold validate_shape at h
      by_cases he : fields.isEmpty = true
      · simp [Json.isTruthy, Json.isDict, he] at h
      · have he' : fields.isEmpty = false := by simpa using he
        have hne : fields ≠ [] := by simpa [List.isEmpty_iff] using he
        simp only [Json.isTruthy, Json.isDict, he', Bool.not_true, Bool.not_false,
          Bool.not_not, Bool.or_false, Bool.false_eq_true, if_false] at h
        split at h
        · exact ⟨fields, by injection h with h1; exact h1.symm, hne⟩
        · split at h
          · exact ⟨fields, by injection h with h1; exact h1.symm, hne⟩
          · cases h

/-- C10: a model text that parses to the empty JSON object `\x7b\x7d` — or
to any value that is not a dict — is rejected by `call_gemini_api` (used by
both endpoints) with the 500 body
`Invalid response format from Gemini API`, even though an empty object
vacuously satisfies the per-entry question/solution check; dually, every
result the shape check accepts is a non-empty dict. -/
theorem C10_empty_or_nondict_rejected (k s prompt : String)
    (jsonLoads : String → Except String Json) (result : Json)
    (hk : k ≠ "") (hs : s ≠ "") (hparse : jsonLoads s = .ok result)
    (hshape : result = Json.obj [] ∨ result.isDict = false) :
    (call_gemini_api (some k) (.resp 200 (geminiBody s)) jsonLoads prompt).res =
      .ok (none, some ⟨.str "Invalid response format from Gemini API"⟩, some 500) ∧
    ∀ result2 r : Json, validate_shape result2 = .ok r →
      ∃ fields, r = Json.obj fields ∧ fields ≠ [] := by
  constructor
  · have hk' : k.isEmpty = false := by
      cases h : k.isEmpty
      · rfl
      · exact absurd ((String.isEmpty_iff k).mp h) hk
    have hs' : s.isEmpty = false := by
      cases h : s.isEmpty
      · rfl
      · exact absurd ((String.isEmpty_iff s).mp h) hs
    simp [call_gemini_api, keyMissing, hk', gemini_success_response, geminiBody,
      pyGet, pyFirst, lookupKey, Json.isTruthy, hs', hparse,
      validate_shape_invalid result hshape]
  · exact validate_shape_ok_nonempty

theorem C10_empty_or_nondict_rejected_witness :
    (call_gemini_api (some "key") (.resp 200 (geminiBody "raw"))
        (fun _ => .ok (Json.obj [])) "p").res =
      .ok (none, some ⟨.str "Invalid response format from Gemini API"⟩, some 500) ∧
    ∀ result2 r : Json, validate_shape result2 = .ok r →
      ∃ fields, r = Json.obj fields ∧ fields ≠ [] :=
  C10_empty_or_nondict_rejected "key" "raw" "p" (fun _ => .ok (Json.obj []))
    (Json.obj []) (by decide) (by decide) rfl (Or.inl rfl)

/-- A non-empty string is not `isEmpty`. -/
theorem isEmpty_false_of_ne {k : String} (hk : k ≠ "") : k.isEmpty = false := by
  cases h : k.isEmpty
  · rfl
  · exact absurd ((String.isEmpty_iff k).mp h) hk

theorem lookupKey_nil (k : String) : lookupKey [] k = none := rfl

/-- C1 counterexample: on the solve-questions endpoint, a parsed result
whose `Q1` entry has neither `question` nor `solution` is nevertheless
answered 200 and wrapped under `solutions`, because the result also
carries a `notes` key and the check is keyed on that key, not on the
requested task. -/
theorem C1_notes_key_bypasses_entry_check :
    (upload_pdf (some "key") (.resp 200 (geminiBody "raw"))
        (fun _ => .ok (Json.obj [("notes", Json.str "n"), ("Q1", Json.obj [])]))
        ⟨none, .ok, .ok "Q1: what is 2 plus 2?", true⟩ [] (some ⟨"test.pdf", []⟩)).resp =
      .ok (.solutions (Json.obj [("notes", Json.str "n"), ("Q1", Json.obj [])]), 200) ∧
    solutionEntryOk (Json.obj []) = false :=
  ⟨rfl, rfl⟩

/-- C1 amended: the shape check both endpoints share (`call_gemini_api`
does not know the task kind) accepts a parsed result exactly when it is a
non-empty JSON object that either contains a `notes` key — in which case
it is returned as-is, its other entries unchecked — or has every value an
object with both `question` and `solution` fields; otherwise it is
rejected with a 500. -/
theorem C1_shape_check_keyed_on_notes (result : Json) :
    validate_shape result = .ok result ↔
      ∃ fields, result = Json.obj fields ∧ fields ≠ [] ∧
        (hasKey fields "notes" = true ∨
          (fields.map Prod.snd).all solutionEntryOk = true) := by
  cases result with
  | null => simp [validate_shape, Json.isTruthy, Json.isDict]
  | bool b => cases b <;> simp [validate_shape, Json.isTruthy, Json.isDict]
  | num n => simp [validate_shape, Json.isTruthy, Json.isDict]
  | str s => simp [validate_shape, Json.isTruthy, Json.isDict]
  | arr elems => simp [validate_shape, Json.isTruthy, Json.isDict]
  | obj fields =>
      by_cases he : fields.isEmpty = true
      · have hemp : fields = [] := by simpa [List.isEmpty_iff] using he
        subst hemp
        simp [validate_shape, Json.isTruthy, Json.isDict]
      · have he' : fields.isEmpty = false := by simpa using he
        have hne : fields ≠ [] := by simpa [List.isEmpty_iff] using he
        have hval : validate_shape (Json.obj fields) =
            (if hasKey fields "notes" then .ok (Json.obj fields)
             else if (fields.map Prod.snd).all solutionEntryOk then .ok (Json.obj fields)
             else .error ⟨.str "Gemini API returned invalid solution format"⟩) := by
          unfold validate_shape
          have hcond : (!(Json.obj fields).isTruthy || !(Json.obj fields).isDict) = false := by
            simp [Json.isTruthy, Json.isDict, he']
          rw [hcond]
          simp only [Bool.false_eq_true, if_false]
        rw [hval]
        by_cases h1 : hasKey fields "notes" = true
        · rw [h1]
          simp only [if_true]
          constructor
          · intro _
            exact ⟨fields, rfl, hne, Or.inl h1⟩
          · intro _
            trivial
        · have h1' : hasKey fields "notes" = false := by simpa using h1
          rw [h1']
          simp only [Bool.false_eq_true, if_false]
          by_cases h2 : (fields.map Prod.snd).all solutionEntryOk = true
          · rw [h2]
            simp only [if_true]
            constructor
            · intro _
              exact ⟨fields, rfl, hne, Or.inr h2⟩
            · intro _
              trivial
          · have h2' : (fields.map Prod.snd).all solutionEntryOk = false := by simpa using h2
            rw [h2']
            simp only [Bool.false_eq_true, if_false]
            constructor
            · intro h
              exact Except.noConfusion h
            · rintro ⟨fields2, heq, hne2, hor⟩
              injection heq with hf
              subst hf
              rcases hor with hq | hq
              · rw [h1'] at hq
                cases hq
              · rw [h2'] at hq
                cases hq

/-- A text of 8001 identical characters, longer than the truncation
threshold. -/
def bigText : String := String.mk (List.replicate 8001 'a')

/-- The characters that survive `dropWhile isPySpace` when none of them is
whitespace. -/
theorem dropWhile_replicate_nonspace (n : Nat) (c : Char) (h : isPySpace c = false) :
    (List.replicate n c).dropWhile isPySpace = List.replicate n c := by
  cases n with
  | zero => rfl
  | succ m => simp [List.replicate_succ, List.dropWhile_cons, h]

/-- Stripping leaves a run of one non-whitespace character alone. -/
theorem pyStrip_replicate (n : Nat) (c : Char) (h : isPySpace c = false) :
    pyStrip (String.mk (List.replicate n c)) = String.mk (List.replicate n c) := by
  unfold pyStrip
  rw [dropWhile_replicate_nonspace n c h, List.reverse_replicate,
    dropWhile_replicate_nonspace n c h, List.reverse_replicate]

/-- C2 counterexample: for an extracted text of 8001 characters, the
generate-notes endpoint builds its prompt around the text UNCHANGED — the
prompt differs from the one the claimed truncation (8000-character prefix
plus marker) would produce.  Only the solve-questions endpoint truncates. -/
theorem C2_notes_endpoint_embeds_untruncated :
    8000 < bigText.length ∧
    (generate_notes (some "key") (.exc "down") (fun _ => .error "e")
        ⟨none, .ok, .ok bigText, true⟩ [] (some ⟨"a.pdf", []⟩)).built =
      some (notesPromptPre ++ bigText ++ notesPromptPost) ∧
    notesPromptPre ++ bigText ++ notesPromptPost ≠
      notesPromptPre ++ (takeChars bigText 8000 ++ truncMarker) ++ notesPromptPost := by
  have h1 : bigText.length = 8001 := by
    simp only [bigText, String.length, List.length_replicate]
  have h2 : (takeChars bigText 8000).length = 8000 := by
    simp only [takeChars, bigText, String.length, List.length_take, List.length_replicate]
    decide
  have h3 : truncMarker.length = 40 := by decide
  have hps : pyStrip bigText = bigText := pyStrip_replicate 8001 'a' rfl
  have hbne : bigText ≠ "" := by
    intro hbe
    have hl := congrArg String.length hbe
    rw [h1] at hl
    exact absurd hl (by decide)
  have hts : (pyStrip bigText == "") = false := by
    rw [hps]
    simp [beq_iff_eq, hbne]
  have f1 : (("a.pdf" : String) == "") = false := rfl
  have f2 : endswith "a.pdf" ".pdf" = true := rfl
  have f3 : oversize none = false := rfl
  refine ⟨by omega, ?_, ?_⟩
  · have hp : process_pdf ⟨none, .ok, .ok bigText, true⟩ [] ⟨"a.pdf", []⟩ =
        ⟨some bigText, none, none,
          runFinally true (file_path uploadFolder ⟨"a.pdf", []⟩)
            (fsAdd [] (file_path uploadFolder ⟨"a.pdf", []⟩))⟩ := by
      simp [process_pdf, f1, f2, f3, hts]
    have f4 : (("key" : String).isEmpty) = false := rfl
    simp [generate_notes, hp, call_gemini_api, keyMissing, notes_prompt, f4]
  · intro h
    have hlen := congrArg String.length h
    simp only [String.length_append] at hlen
    omega

/-- C2 amended: after a successful extraction, the solve-questions
endpoint embeds `truncate_text t` into its template — the 8000-character
prefix plus the marker when `t` is longer than 8000 characters, `t`
unchanged otherwise — while the generate-notes endpoint embeds `t`
unchanged whatever its length. -/
theorem C2_truncation_only_in_upload (apiKey : Option String) (http : HttpOutcome)
    (jsonLoads : String → Except String Json) (env : PdfEnv) (fs : FS)
    (file : UploadedFile) (t : String)
    (hne : file.filename ≠ "") (hpdf : endswith file.filename ".pdf" = true)
    (hov : oversize env.contentLength = false) (hsave : env.save = .ok)
    (hex : env.extractText = .ok t) (hts : (pyStrip t == "") = false) :
    (upload_pdf apiKey http jsonLoads env fs (some file)).built =
      some (upload_prompt (truncate_text t)) ∧
    (generate_notes apiKey http jsonLoads env fs (some file)).built =
      some (notes_prompt t) ∧
    (8000 < t.length → truncate_text t = takeChars t 8000 ++ truncMarker) ∧
    (t.length ≤ 8000 → truncate_text t = t) := by
  have h0 : (file.filename == "") = false := by simp [hne]
  have hp : process_pdf env fs file =
      ⟨some t, none, none, runFinally env.removeOk (file_path uploadFolder file)
        (fsAdd fs (file_path uploadFolder file))⟩ := by
    simp [process_pdf, h0, hpdf, hov, hsave, hex, hts]
  refine ⟨?_, ?_, ?_, ?_⟩
  · simp only [upload_pdf, hp]
    cases hc : (call_gemini_api apiKey http jsonLoads
        (upload_prompt (truncate_text t))).res with
    | error e => simp [hc]
    | ok trip =>
        obtain ⟨resultq, errq, statusq⟩ := trip
        cases errq <;> simp [hc]
  · simp only [generate_notes, hp]
    cases hc : (call_gemini_api apiKey http jsonLoads (notes_prompt t)).res with
    | error e => simp [hc]
    | ok trip =>
        obtain ⟨resultq, errq, statusq⟩ := trip
        cases errq <;> simp [hc]
  · intro h
    simp [truncate_text, h]
  · intro h
    have hlt : ¬ (8000 < t.length) := Nat.not_lt.mpr h
    simp [truncate_text, hlt]

theorem C2_truncation_only_in_upload_witness :
    (upload_pdf (some "k") (.exc "down") (fun _ => .error "e")
        ⟨none, .ok, .ok "hi", true⟩ [] (some ⟨"a.pdf", []⟩)).built =
      some (upload_prompt (truncate_text "hi")) ∧
    (generate_notes (some "k") (.exc "down") (fun _ => .error "e")
        ⟨none, .ok, .ok "hi", true⟩ [] (some ⟨"a.pdf", []⟩)).built =
      some (notes_prompt "hi") ∧
    (8000 < ("hi" : String).length →
      truncate_text "hi" = takeChars "hi" 8000 ++ truncMarker) ∧
    (("hi" : String).length ≤ 8000 → truncate_text "hi" = "hi") :=
  C2_truncation_only_in_upload (some "k") (.exc "down") (fun _ => .error "e")
    ⟨none, .ok, .ok "hi", true⟩ [] ⟨"a.pdf", []⟩ "hi"
    (by decide) (by decide) rfl rfl rfl (by decide)

/-- C8 counterexample: an upstream 400 whose body is
`\x7b"error": "boom"\x7d` makes the handler raise an uncaught
`AttributeError` (`.get` on a string) instead of returning any structured
500 response. -/
theorem C8_nondict_error_field_raises :
    (call_gemini_api (some "key") (.resp 400 (Json.obj [("error", Json.str "boom")]))
        (fun _ => .error "unused") "p").res =
      .error (.attributeError "str object has no attribute get") := rfl

/-- C8 amended: for an upstream non-200 response whose JSON body is an
object, `call_gemini_api` returns a 500 carrying `error.message` when the
`error` field is an object (falling back to `Gemini API request failed`
when `message` is absent), the same generic 500 when the `error` field is
absent, and no result in either case; but when the `error` field — or the
body itself — is not an object, it raises an uncaught `AttributeError`
instead of returning a response. -/
theorem C8_upstream_error_translation (k prompt : String) (st : Nat)
    (fields : List (String × Json)) (jsonLoads : String → Except String Json)
    (hk : k ≠ "") (hst : st ≠ 200) :
    (lookupKey fields "error" = none →
      (call_gemini_api (some k) (.resp st (Json.obj fields)) jsonLoads prompt).res =
        .ok (none, some ⟨.str "Gemini API request failed"⟩, some 500)) ∧
    (∀ efields, lookupKey fields "error" = some (.obj efields) →
      (call_gemini_api (some k) (.resp st (Json.obj fields)) jsonLoads prompt).res =
        .ok (none,
          some ⟨(lookupKey efields "message").getD (.str "Gemini API request failed")⟩,
          some 500)) ∧
    (∀ ej, lookupKey fields "error" = some ej → ej.isDict = false →
      (call_gemini_api (some k) (.resp st (Json.obj fields)) jsonLoads prompt).res =
        .error (.attributeError (ej.typeName ++ " object has no attribute get"))) ∧
    (∀ body2 : Json, body2.isDict = false →
      (call_gemini_api (some k) (.resp st body2) jsonLoads prompt).res =
        .error (.attributeError (body2.typeName ++ " object has no attribute get"))) := by
  have hkm : keyMissing (some k) = false := by
    simp [keyMissing, isEmpty_false_of_ne hk]
  have hst' : (st != 200) = true := by simpa [bne_iff_ne] using hst
  have hcall : ∀ body : Json,
      (call_gemini_api (some k) (.resp st body) jsonLoads prompt).res =
        gemini_error_response body := by
    intro body
    simp [call_gemini_api, hkm, hst']
  refine ⟨?_, ?_, ?_, ?_⟩
  · intro hlf
    rw [hcall]
    simp [gemini_error_response, pyGet, hlf, lookupKey_nil]
  · intro efields hlf
    rw [hcall]
    simp [gemini_error_response, pyGet, hlf]
  · intro ej hlf hnd
    rw [hcall]
    cases ej with
    | obj f2 => simp [Json.isDict] at hnd
    | null => simp [gemini_error_response, pyGet, hlf, Json.typeName]
    | bool b => simp [gemini_error_response, pyGet, hlf, Json.typeName]
    | num n => simp [gemini_error_response, pyGet, hlf, Json.typeName]
    | str s => simp [gemini_error_response, pyGet, hlf, Json.typeName]
    | arr elems => simp [gemini_error_response, pyGet, hlf, Json.typeName]
  · intro body2 hnd
    rw [hcall]
    cases body2 with
    | obj f2 => simp [Json.isDict] at hnd
    | null => simp [gemini_error_response, pyGet, Json.typeName]
    | bool b => simp [gemini_error_response, pyGet, Json.typeName]
    | num n => simp [gemini_error_response, pyGet, Json.typeName]
    | str s => simp [gemini_error_response, pyGet, Json.typeName]
    | arr elems => simp [gemini_error_response, pyGet, Json.typeName]

theorem C8_upstream_error_translation_witness :
    (lookupKey [("error", Json.obj [("message", Json.str "quota exceeded")])] "error" =
        none →
      (call_gemini_api (some "key")
          (.resp 429 (Json.obj [("error", Json.obj [("message", Json.str "quota exceeded")])]))
          (fun _ => .error "unused") "p").res =
        .ok (none, some ⟨.str "Gemini API request failed"⟩, some 500)) ∧
    (∀ efields,
      lookupKey [("error", Json.obj [("message", Json.str "quota exceeded")])] "error" =
          some (.obj efields) →
      (call_gemini_api (some "key")
          (.resp 429 (Json.obj [("error", Json.obj [("message", Json.str "quota exceeded")])]))
          (fun _ => .error "unused") "p").res =
        .ok (none,
          some ⟨(lookupKey efields "message").getD (.str "Gemini API request failed")⟩,
          some 500)) ∧
    (∀ ej,
      lookupKey [("error", Json.obj [("message", Json.str "quota exceeded")])] "error" =
          some ej → ej.isDict = false →
      (call_gemini_api (some "key")
          (.resp 429 (Json.obj [("error", Json.obj [("message", Json.str "quota exceeded")])]))
          (fun _ => .error "unused") "p").res =
        .error (.attributeError (ej.typeName ++ " object has no attribute get"))) ∧
    (∀ body2 : Json, body2.isDict = false →
      (call_gemini_api (some "key") (.resp 429 body2) (fun _ => .error "unused") "p").res =
        .error (.attributeError (body2.typeName ++ " object has no attribute get"))) :=
  C8_upstream_error_translation "key" "p" 429
    [("error", Json.obj [("message", Json.str "quota exceeded")])]
    (fun _ => .error "unused") (by decide) (by decide)

end StudyBuddy
